import Mathlib

/-!
Shallow embedding of `src/core/src/dispatch/mod.rs` (network dispatcher of the
kompact actor runtime): the data model (`ActorPath`, `SystemPath`, `Frame`,
`ConnectionState`), the `QueueManager`, and the `NetworkDispatcher` routing
and lifecycle operations, translated from the Rust source.  Logging fields
(`KompicsLogger`, `ComponentContext`) carry no routing-relevant state and are
omitted; `error!` logging is recorded as an observable effect.  Channel
`try_send` outcomes are supplied by an oracle parameter, standing for the
runtime behaviour of the bounded MPSC channel held in
`ConnectionState::Connected`.
-/

namespace Dispatch

/-- Transport tags of a system path (`actors::Transport`). -/
inductive Transport where
  | LOCAL
  | TCP
  | UDP
deriving DecidableEq, Repr

/-- `SystemPath` = `{transport, ip address, port}`; IP modelled as a `Nat`. -/
structure SystemPath where
  protocol : Transport
  ip : Nat
  port : Nat
deriving DecidableEq, Repr

/-- `SystemPath::new(transport, ip, port)`. -/
def SystemPath.new (t : Transport) (ip port : Nat) : SystemPath :=
  { protocol := t, ip := ip, port := port }

/-- `ActorPath`: a unique id or a named segment sequence, over a system path. -/
inductive ActorPath where
  | Unique (sys : SystemPath) (id : Nat)
  | Named (sys : SystemPath) (segs : List String)
deriving DecidableEq, Repr

/-- The system path carried by an actor path (`SystemField::system`). -/
def ActorPath.system : ActorPath → SystemPath
  | .Unique sys _ => sys
  | .Named sys _ => sys

/-- `SystemField::address` delegated through the system path. -/
def ActorPath.address (p : ActorPath) : Nat := p.system.ip

/-- `SystemField::port` delegated through the system path. -/
def ActorPath.port (p : ActorPath) : Nat := p.system.port

/-- `PathResolvable`: a full path or a local actor handle. -/
inductive PathResolvable where
  | Path (p : ActorPath)
  | Handle (h : Nat)
deriving DecidableEq, Repr

/-- `std::net::SocketAddr`, as `(ip, port)`. -/
structure SocketAddr where
  ip : Nat
  port : Nat
deriving DecidableEq, Repr

/-- `SocketAddr::new(ip, port)`. -/
def SocketAddr.new (ip port : Nat) : SocketAddr := { ip := ip, port := port }

/-- Payload of a `Data` frame (`spnl::frames::Data`); bytes kept as `String`. -/
structure Data where
  stream_id : Nat
  seq : Nat
  payload : String
deriving DecidableEq, Repr

/-- `Data::with_raw_payload(stream_id, seq, bytes)`. -/
def Data.with_raw_payload (sid sq : Nat) (bytes : String) : Data :=
  { stream_id := sid, seq := sq, payload := bytes }

/-- Wire frames (`spnl::frames::Frame`); the dispatcher only builds `Data`. -/
inductive Frame where
  | Data (d : Data)
  | Hello
  | Bye
  | Ack
deriving DecidableEq, Repr

/-- A boxed `Serialisable` user message; the dispatcher never inspects it,
so it is modelled by its would-be serialised bytes. -/
def Serialisable := String
deriving instance DecidableEq, Repr for Serialisable

/-- `net::ConnectionState`, keyed per peer `SocketAddr`.  `Connected` carries
a peer id and the sender half of the bounded channel (a channel handle). -/
inductive ConnectionState where
  | New
  | Initializing
  | Connected (id : Nat) (tx : Nat)
  | Closed
  | Blocked
deriving DecidableEq, Repr

/-- Outcome of `tx.try_send(frame)` on the bounded channel: `Ok`, or an error
with `is_full` or `is_disconnected` set (the only two error kinds). -/
inductive SendResult where
  | ok
  | full
  | disconnected
deriving DecidableEq, Repr

/-- `QueueManager`: per-`SocketAddr` `VecDeque<Frame>` (front of the deque is
the head of the list; `push_back` appends at the end).  The logger field is
omitted.  An absent key and an empty deque are observationally equal for the
two operations, so the map is total with default `[]`. -/
structure QueueManager where
  inner : SocketAddr → List Frame

/-- `QueueManager::new`. -/
def QueueManager.new : QueueManager := { inner := fun _ => [] }

/-- `QueueManager::enqueue_frame`: `self.inner.entry(dst).or_insert(new).push_back(frame)`. -/
def QueueManager.enqueue_frame (qm : QueueManager) (frame : Frame) (dst : SocketAddr) :
    QueueManager :=
  { inner := fun a => if a = dst then qm.inner dst ++ [frame] else qm.inner a }

/-- `QueueManager::dequeue_frame`: `self.inner.get_mut(dst).and_then(|q| q.pop_back())`.
`pop_back` removes and returns the BACK (most recently pushed) element. -/
def QueueManager.dequeue_frame (qm : QueueManager) (dst : SocketAddr) :
    QueueManager × Option Frame :=
  match (qm.inner dst).getLast? with
  | some f =>
      ({ inner := fun a => if a = dst then (qm.inner dst).dropLast else qm.inner a }, some f)
  | none => (qm, none)

/-- `NetworkConfig`: the single field `addr: SocketAddr`. -/
structure NetworkConfig where
  addr : SocketAddr
deriving DecidableEq, Repr

/-- `NetworkConfig::default()`: `127.0.0.1:8080` (IP collapsed to its `Nat` model). -/
def NetworkConfig.default : NetworkConfig := { addr := SocketAddr.new 2130706433 8080 }

/-- `net::Bridge`, as far as the dispatcher observes it: it has been started
on a bind address.  Socket internals live outside this module. -/
structure Bridge where
  bound : SocketAddr
deriving DecidableEq, Repr

/-- Externally observable side effects of the dispatcher's routing functions:
a `bridge.connect(TCP, addr)` request, an `error!` log, and (never produced
by this module, but needed to state its absence) a deadletter emission. -/
inductive Effect where
  | connect (addr : SocketAddr)
  | logError
  | deadLetter
deriving DecidableEq, Repr

/-- `NetworkDispatcher`: connections table, config, and the two fields that
stay `None` until `ControlEvent::Start` (`net_bridge`, `queue_manager`).
The `ctx` (logger/context) and `lookup` fields are omitted: no code modelled
here reads or writes them (`route_local` is commented out in the source). -/
structure NetworkDispatcher where
  connections : SocketAddr → Option ConnectionState
  cfg : NetworkConfig
  net_bridge : Option Bridge
  queue_manager : Option QueueManager

/-- `NetworkDispatcher::with_config`. -/
def NetworkDispatcher.with_config (cfg : NetworkConfig) : NetworkDispatcher :=
  { connections := fun _ => none
    cfg := cfg
    net_bridge := none
    queue_manager := none }

/-- `NetworkDispatcher::new` = `default()` = `with_config(NetworkConfig::default())`. -/
def NetworkDispatcher.new : NetworkDispatcher :=
  NetworkDispatcher.with_config NetworkConfig.default

/-- `NetworkDispatcher::start`: builds the bridge (started on `cfg.addr`) and
a fresh queue manager, storing both.  The event-stream plumbing to the
executor is transport-side and not modelled. -/
def NetworkDispatcher.start (st : NetworkDispatcher) : NetworkDispatcher :=
  { st with
    net_bridge := some { bound := st.cfg.addr }
    queue_manager := some QueueManager.new }

/-- `NetworkDispatcher::route_local`.  The entire body of this function is
commented out in the source; it mutates nothing and emits nothing. -/
def NetworkDispatcher.route_local (st : NetworkDispatcher) (_src : PathResolvable)
    (_dst : ActorPath) (_msg : Serialisable) : NetworkDispatcher × List Effect :=
  (st, [])

/-- The frame built at the top of `route_remote`:
`Frame::Data(Data::with_raw_payload(0.into(), 0, "TODObytes".as_bytes()))`.
It ignores both the message and the destination. -/
def route_remote_frame (_msg : Serialisable) : Frame :=
  Frame.Data (Data.with_raw_payload 0 0 "TODObytes")

/-- `NetworkDispatcher::route_remote`.  `trySend` is the oracle for
`tx.try_send(frame)` on the channel handle stored in `Connected`.  Mirrors
the source: build the frame, `connections.entry(addr).or_insert(New)`,
branch on the state, optionally enqueue on the (optional) queue manager,
and write back `next` when the branch produced one. -/
def NetworkDispatcher.route_remote (trySend : Nat → Frame → SendResult)
    (st : NetworkDispatcher) (_src : PathResolvable) (dst : ActorPath)
    (msg : Serialisable) : NetworkDispatcher × List Effect :=
  let frame := route_remote_frame msg
  let addr : SocketAddr := SocketAddr.new dst.address dst.port
  let state : ConnectionState := (st.connections addr).getD ConnectionState.New
  let branch : Option ConnectionState × Bool × List Effect :=
    match state with
    | ConnectionState.New | ConnectionState.Closed =>
        match st.net_bridge with
        | some _ => (some ConnectionState.Initializing, true, [Effect.connect addr])
        | none => (some ConnectionState.Closed, true, [Effect.logError])
    | ConnectionState.Connected _ tx =>
        match trySend tx frame with
        | SendResult.ok => (none, false, [])
        | SendResult.full => (none, true, [])
        | SendResult.disconnected => (some ConnectionState.Closed, true, [])
    | ConnectionState.Initializing => (none, true, [])
    | ConnectionState.Blocked => (none, false, [])
  let next := branch.1
  let qm := if branch.2.1 then
      Option.map (fun q => q.enqueue_frame frame addr) st.queue_manager
    else st.queue_manager
  ({ st with
      connections := fun a => if a = addr then some (next.getD state) else st.connections a
      queue_manager := qm },
   branch.2.2)

/-- `NetworkDispatcher::route`: dispatch on `dst.system().protocol`.
`LOCAL` goes to `route_local`, `TCP` to `route_remote`, `UDP` only logs
"UDP routing not supported yet". -/
def NetworkDispatcher.route (trySend : Nat → Frame → SendResult)
    (st : NetworkDispatcher) (src : PathResolvable) (dst : ActorPath)
    (msg : Serialisable) : NetworkDispatcher × List Effect :=
  match dst.system.protocol with
  | Transport.LOCAL => st.route_local src dst msg
  | Transport.TCP => NetworkDispatcher.route_remote trySend st src dst msg
  | Transport.UDP => (st, [Effect.logError])

/-- `lifecycle::ControlEvent`. -/
inductive ControlEvent where
  | Start
  | Stop
  | Kill
deriving DecidableEq, Repr

/-- `Provide<ControlPort>::handle`: `Start` calls `self.start()`; `Stop` and
`Kill` only log. -/
def NetworkDispatcher.handle (st : NetworkDispatcher) (event : ControlEvent) :
    NetworkDispatcher :=
  match event with
  | ControlEvent.Start => st.start
  | ControlEvent.Stop => st
  | ControlEvent.Kill => st

/-- `Dispatcher::system_path`:
`SystemPath::new(Transport::LOCAL, self.cfg.addr.ip(), self.cfg.addr.port())`. -/
def NetworkDispatcher.system_path (st : NetworkDispatcher) : SystemPath :=
  SystemPath.new Transport.LOCAL st.cfg.addr.ip st.cfg.addr.port

/-- `MsgEnvelope` items pushed through the `futures::Sink for ActorRef`
adapter; opaque to the sink. -/
def MsgEnvelope := String
deriving instance DecidableEq, Repr for MsgEnvelope

/-- `ActorRef` as the sink adapter observes it: the mailbox that
`ActorRef::enqueue` appends to. -/
structure ActorRef where
  mailbox : List MsgEnvelope
deriving DecidableEq, Repr

/-- `ActorRef::enqueue(self, item)`. -/
def ActorRef.enqueue (r : ActorRef) (item : MsgEnvelope) : ActorRef :=
  { mailbox := r.mailbox ++ [item] }

/-- `futures::AsyncSink<MsgEnvelope>`. -/
inductive AsyncSink where
  | Ready
  | NotReady (item : MsgEnvelope)
deriving DecidableEq, Repr

/-- `futures::Async<()>`. -/
inductive AsyncUnit where
  | Ready
  | NotReady
deriving DecidableEq, Repr

/-- `Sink::start_send for ActorRef`: enqueue and return `Ok(AsyncSink::Ready)`. -/
def ActorRef.start_send (r : ActorRef) (item : MsgEnvelope) :
    ActorRef × Except Unit AsyncSink :=
  (r.enqueue item, Except.ok AsyncSink.Ready)

/-- `Sink::poll_complete for ActorRef`: always `Ok(Async::Ready(()))`. -/
def ActorRef.poll_complete (r : ActorRef) : ActorRef × Except Unit AsyncUnit :=
  (r, Except.ok AsyncUnit.Ready)

/-- `Sink::close for ActorRef`: always `Ok(Async::Ready(()))`. -/
def ActorRef.close (r : ActorRef) : ActorRef × Except Unit AsyncUnit :=
  (r, Except.ok AsyncUnit.Ready)

/-! Concrete fixtures used to evaluate the model at specific inputs. -/

/-- A concrete peer socket address. -/
def p0 : SocketAddr := SocketAddr.new 1 2

/-- A TCP destination path whose socket address is `p0`. -/
def dstT : ActorPath := ActorPath.Unique (SystemPath.new Transport.TCP 1 2) 42

/-- A Local-transport destination path. -/
def dstL : ActorPath := ActorPath.Unique (SystemPath.new Transport.LOCAL 9 9) 3

/-- A UDP destination path. -/
def dstU : ActorPath := ActorPath.Unique (SystemPath.new Transport.UDP 5 6) 7

/-- A concrete source. -/
def srcP : PathResolvable := PathResolvable.Handle 0

/-- Channel oracle: every `try_send` succeeds. -/
def okOracle : Nat → Frame → SendResult := fun _ _ => SendResult.ok

/-- Channel oracle: every `try_send` fails with `is_disconnected`. -/
def discOracle : Nat → Frame → SendResult := fun _ _ => SendResult.disconnected

/-- A started dispatcher (bridge and queue manager present) whose connection
table maps `p0` to `Connected(1, 7)` and everything else to absent. -/
def stConn : NetworkDispatcher :=
  { connections := fun a => if a = p0 then some (ConnectionState.Connected 1 7) else none
    cfg := NetworkConfig.default
    net_bridge := some { bound := NetworkConfig.default.addr }
    queue_manager := some QueueManager.new }

/-- A freshly started dispatcher with an empty connection table. -/
def stStarted : NetworkDispatcher :=
  (NetworkDispatcher.with_config NetworkConfig.default).start

/-- `n`-fold repetition of `enqueue_frame` of the same frame to one peer. -/
def enqueueRepeat (qm : QueueManager) (f : Frame) (p : SocketAddr) : Nat → QueueManager
  | 0 => qm
  | n + 1 => (enqueueRepeat qm f p n).enqueue_frame f p

/-- Each `enqueue_frame` grows the peer's queue by exactly one frame. -/
theorem enqueueRepeat_length (qm : QueueManager) (f : Frame) (p : SocketAddr) :
    ∀ n, ((enqueueRepeat qm f p n).inner p).length = (qm.inner p).length + n := by
  intro n
  induction n with
  | zero => rfl
  | succ k ih =>
      simp [enqueueRepeat, QueueManager.enqueue_frame, ih]
      omega

/-- C1: `enqueue_frame` pushes to the back and `dequeue_frame` pops from the
back, so after enqueuing `Hello` then `Bye` on peer `p0`, `dequeue_frame`
returns `Bye` (the latest frame), not the earliest-enqueued `Hello` the
claim and the queue documentation require. -/
theorem C1_dequeue_lifo_eval :
    (((QueueManager.new.enqueue_frame Frame.Hello p0).enqueue_frame
        Frame.Bye p0).dequeue_frame p0).2 = some Frame.Bye ∧
      Frame.Hello ≠ Frame.Bye := by
  exact ⟨rfl, by decide⟩

/-- C2: routing a message to a Local-transport destination is a no-op: the
body of `route_local` is commented out, so the dispatcher state is unchanged
and no effect (no mailbox enqueue, no deadletter) is produced. -/
theorem C2_route_local_noop_eval :
    NetworkDispatcher.route okOracle (NetworkDispatcher.with_config NetworkConfig.default)
        srcP dstL "hello"
      = (NetworkDispatcher.with_config NetworkConfig.default, []) := rfl

/-- C3: the frame built by `route_remote` is the constant
`Data{stream_id = 0, seq = 0, payload = "TODObytes"}` for every message, so
the payload is not the message's serialisation and the stream id is not
derived from the destination (e.g. not 42 for `dstT`). -/
theorem C3_placeholder_frame_eval :
    route_remote_frame "hello" = Frame.Data (Data.with_raw_payload 0 0 "TODObytes") ∧
    route_remote_frame "hello" = route_remote_frame "another payload" ∧
    ("hello" : Serialisable) ≠ ("another payload" : Serialisable) := by
  exact ⟨rfl, rfl, by decide⟩

/-- C7: after `with_config` the bridge and queue manager are `none`; handling
`Start` makes both `some`; handling `Stop` or `Kill` changes nothing. -/
theorem C7_inert_until_start (cfg : NetworkConfig) (st : NetworkDispatcher) :
    (NetworkDispatcher.with_config cfg).net_bridge = none ∧
    (NetworkDispatcher.with_config cfg).queue_manager = none ∧
    (st.handle ControlEvent.Start).net_bridge.isSome = true ∧
    (st.handle ControlEvent.Start).queue_manager.isSome = true ∧
    st.handle ControlEvent.Stop = st ∧
    st.handle ControlEvent.Kill = st :=
  ⟨rfl, rfl, rfl, rfl, rfl, rfl⟩

/-- C8: the `Sink` impl for `ActorRef` never exerts backpressure:
`start_send` always enqueues and answers `Ok(AsyncSink::Ready)`, and
`poll_complete` and `close` always answer `Ok(Async::Ready(()))`. -/
theorem C8_sink_no_backpressure (r : ActorRef) (item : MsgEnvelope) :
    r.start_send item = ({ mailbox := r.mailbox ++ [item] }, Except.ok AsyncSink.Ready) ∧
    r.poll_complete = (r, Except.ok AsyncUnit.Ready) ∧
    r.close = (r, Except.ok AsyncUnit.Ready) :=
  ⟨rfl, rfl, rfl⟩

/-- C10: `system_path` always reports transport `LOCAL` with the configured
bind address's IP and port. -/
theorem C10_system_path_local (st : NetworkDispatcher) :
    st.system_path.protocol = Transport.LOCAL ∧
    st.system_path.ip = st.cfg.addr.ip ∧
    st.system_path.port = st.cfg.addr.port :=
  ⟨rfl, rfl, rfl⟩

/-- C4 (counterexample): with a `Connected(1, 7)` entry for `p0` and a channel
whose `try_send` answers `Disconnected`, `route_remote` transitions the peer to
`Closed` and requeues the frame but emits NO effect at all — in particular no
`connect` request to the bridge, refuting the claimed reconnect request. -/
theorem C4_no_reconnect_cex :
    stConn.connections p0 = some (ConnectionState.Connected 1 7) ∧
    discOracle 7 (route_remote_frame "m") = SendResult.disconnected ∧
    (NetworkDispatcher.route_remote discOracle stConn srcP dstT "m").1.connections p0
      = some ConnectionState.Closed ∧
    (NetworkDispatcher.route_remote discOracle stConn srcP dstT "m").2 = [] := by
  refine ⟨by decide, rfl, ?_, rfl⟩
  decide

/-- C4 (amended): on a `Connected` peer whose channel `try_send` answers
`Disconnected`, the frame is recovered and enqueued on the peer's queue, the
state becomes `Closed`, and no bridge request or other effect is emitted (no
reconnect is requested; reconnection only happens when a later `route_remote`
finds the state `Closed`). -/
theorem C4_disconnected_transition (trySend : Nat → Frame → SendResult)
    (st : NetworkDispatcher) (src : PathResolvable) (dst : ActorPath)
    (msg : Serialisable) (i t : Nat) (qm : QueueManager)
    (hconn : st.connections (SocketAddr.new dst.address dst.port)
      = some (ConnectionState.Connected i t))
    (hsend : trySend t (route_remote_frame msg) = SendResult.disconnected)
    (hqm : st.queue_manager = some qm) :
    (NetworkDispatcher.route_remote trySend st src dst msg).1.connections
        (SocketAddr.new dst.address dst.port) = some ConnectionState.Closed ∧
    (NetworkDispatcher.route_remote trySend st src dst msg).1.queue_manager
      = some (qm.enqueue_frame (route_remote_frame msg)
          (SocketAddr.new dst.address dst.port)) ∧
    (NetworkDispatcher.route_remote trySend st src dst msg).2 = [] := by
  simp only [NetworkDispatcher.route_remote, hconn, hsend, hqm, Option.getD_some,
    Option.map_some]
  refine ⟨?_, ?_, ?_⟩ <;> simp

/-- C4 witness: the amended theorem applied at the concrete `stConn`,
`discOracle` input. -/
theorem C4_disconnected_transition_witness :
    (NetworkDispatcher.route_remote discOracle stConn srcP dstT "m").1.connections
        (SocketAddr.new dstT.address dstT.port) = some ConnectionState.Closed ∧
    (NetworkDispatcher.route_remote discOracle stConn srcP dstT "m").2 = [] := by
  have h := C4_disconnected_transition discOracle stConn srcP dstT "m" 1 7
    QueueManager.new (by decide) rfl rfl
  exact ⟨h.1, h.2.2⟩

/-- C5 (counterexample): 1025 consecutive `enqueue_frame` calls for one peer
leave all 1025 frames in that peer's queue — over the claimed 1024-frame
bound, with nothing removed, deadlettered, or signalled. -/
theorem C5_unbounded_cex :
    ((enqueueRepeat QueueManager.new Frame.Hello p0 1025).inner p0).length = 1025 ∧
    1024 < 1025 := by
  constructor
  · have h := enqueueRepeat_length QueueManager.new Frame.Hello p0 1025
    simpa using h
  · norm_num

/-- C5 (amended): the per-peer queue is unbounded: `enqueue_frame` appends
the frame to the destination's queue, leaves every other queue untouched, and
never removes anything, so `n` enqueues grow the queue by exactly `n`; there
is no overflow handling (`NetworkConfig` holds only the bind address). -/
theorem C5_enqueue_unbounded (qm : QueueManager) (f : Frame) (p a : SocketAddr)
    (n : Nat) (c : NetworkConfig) :
    (qm.enqueue_frame f p).inner p = qm.inner p ++ [f] ∧
    (qm.enqueue_frame f p).inner a
      = (if a = p then qm.inner p ++ [f] else qm.inner a) ∧
    ((enqueueRepeat qm f p n).inner p).length = (qm.inner p).length + n ∧
    c = { addr := c.addr } := by
  refine ⟨by simp [QueueManager.enqueue_frame], rfl, enqueueRepeat_length qm f p n, rfl⟩

/-- C6 (counterexample): routing to the concrete UDP destination `dstU`
leaves the dispatcher unchanged and only logs an error; no deadletter effect
is emitted, refuting the claimed deadlettering. -/
theorem C6_udp_no_deadletter_cex :
    (NetworkDispatcher.route okOracle NetworkDispatcher.new srcP dstU "m").1
      = NetworkDispatcher.new ∧
    (NetworkDispatcher.route okOracle NetworkDispatcher.new srcP dstU "m").2
      = [Effect.logError] ∧
    Effect.deadLetter ∉
      (NetworkDispatcher.route okOracle NetworkDispatcher.new srcP dstU "m").2 := by
  exact ⟨rfl, rfl, by decide⟩

/-- C6 (amended): for every destination whose transport is `UDP`, `route`
only logs an error and drops the message: the state is unchanged, and no
frame is sent or queued and nothing is deadlettered. -/
theorem C6_udp_drop (trySend : Nat → Frame → SendResult) (st : NetworkDispatcher)
    (src : PathResolvable) (dst : ActorPath) (msg : Serialisable)
    (hudp : dst.system.protocol = Transport.UDP) :
    NetworkDispatcher.route trySend st src dst msg = (st, [Effect.logError]) := by
  unfold NetworkDispatcher.route
  rw [hudp]

/-- C6 witness: the amended theorem applied at the concrete UDP destination
`dstU`. -/
theorem C6_udp_drop_witness :
    NetworkDispatcher.route okOracle stStarted srcP dstU "m"
      = (stStarted, [Effect.logError]) :=
  C6_udp_drop okOracle stStarted srcP dstU "m" rfl

/-- The peer socket address `route_remote` computes from the destination:
`SocketAddr::new(dst.address(), dst.port())`. -/
def destAddr (dst : ActorPath) : SocketAddr := SocketAddr.new dst.address dst.port

/-- C9: after `route_remote`, the connection table has an entry for the
destination's socket address; a prior absent / `New` / `Closed` entry ends in
one of `Initializing`, `Connected`, `Closed`; `Initializing` and `Blocked`
entries are unchanged; a `Connected` entry is unchanged unless `try_send`
answered `Disconnected`, in which case it is `Closed`; entries for every
other address are untouched and no entry is ever removed. -/
theorem C9_route_remote_connection_invariant (trySend : Nat → Frame → SendResult)
    (st : NetworkDispatcher) (src : PathResolvable) (dst : ActorPath)
    (msg : Serialisable) :
    ((NetworkDispatcher.route_remote trySend st src dst msg).1.connections
        (destAddr dst)).isSome = true ∧
    ((st.connections (destAddr dst) = none ∨
        st.connections (destAddr dst) = some ConnectionState.New ∨
        st.connections (destAddr dst) = some ConnectionState.Closed) →
      ((NetworkDispatcher.route_remote trySend st src dst msg).1.connections
          (destAddr dst) = some ConnectionState.Initializing ∨
        (∃ i t, (NetworkDispatcher.route_remote trySend st src dst msg).1.connections
          (destAddr dst) = some (ConnectionState.Connected i t)) ∨
        (NetworkDispatcher.route_remote trySend st src dst msg).1.connections
          (destAddr dst) = some ConnectionState.Closed)) ∧
    (st.connections (destAddr dst) = some ConnectionState.Initializing →
      (NetworkDispatcher.route_remote trySend st src dst msg).1.connections
        (destAddr dst) = some ConnectionState.Initializing) ∧
    (st.connections (destAddr dst) = some ConnectionState.Blocked →
      (NetworkDispatcher.route_remote trySend st src dst msg).1.connections
        (destAddr dst) = some ConnectionState.Blocked) ∧
    (∀ i t, st.connections (destAddr dst) = some (ConnectionState.Connected i t) →
      ((NetworkDispatcher.route_remote trySend st src dst msg).1.connections
          (destAddr dst) = some (ConnectionState.Connected i t) ∨
        (trySend t (route_remote_frame msg) = SendResult.disconnected ∧
          (NetworkDispatcher.route_remote trySend st src dst msg).1.connections
            (destAddr dst) = some ConnectionState.Closed))) ∧
    (∀ a, a ≠ destAddr dst →
      (NetworkDispatcher.route_remote trySend st src dst msg).1.connections a
        = st.connections a) ∧
    (∀ a, (st.connections a).isSome = true →
      ((NetworkDispatcher.route_remote trySend st src dst msg).1.connections a).isSome
        = true) := by
  simp only [destAddr]
  refine ⟨?_, ?_, ?_, ?_, ?_, ?_, ?_⟩
  · simp [NetworkDispatcher.route_remote]
  · rintro (h | h | h) <;> cases hb : st.net_bridge <;>
      simp [NetworkDispatcher.route_remote, h, hb]
  · intro h
    simp [NetworkDispatcher.route_remote, h]
  · intro h
    simp [NetworkDispatcher.route_remote, h]
  · intro i t h
    cases hs : trySend t (route_remote_frame msg) with
    | ok => exact Or.inl (by simp [NetworkDispatcher.route_remote, h, hs])
    | full => exact Or.inl (by simp [NetworkDispatcher.route_remote, h, hs])
    | disconnected =>
        refine Or.inr ⟨rfl, by simp [NetworkDispatcher.route_remote, h, hs]⟩
  · intro a ha
    simp [NetworkDispatcher.route_remote, ha]
  · intro a ha
    by_cases hae : a = SocketAddr.new dst.address dst.port
    · rw [hae]
      simp [NetworkDispatcher.route_remote]
    · simpa [NetworkDispatcher.route_remote, hae] using ha

/-- C9 witness: applying the invariant at the concrete started dispatcher
`stStarted` (empty table, so the destination entry is absent before the
call) with the always-`Ok` channel oracle. -/
theorem C9_route_remote_connection_invariant_witness :
    ((NetworkDispatcher.route_remote okOracle stStarted srcP dstT "m").1.connections
        (destAddr dstT)).isSome = true ∧
    ((NetworkDispatcher.route_remote okOracle stStarted srcP dstT "m").1.connections
        (destAddr dstT) = some ConnectionState.Initializing ∨
      (∃ i t, (NetworkDispatcher.route_remote okOracle stStarted srcP dstT "m").1.connections
        (destAddr dstT) = some (ConnectionState.Connected i t)) ∨
      (NetworkDispatcher.route_remote okOracle stStarted srcP dstT "m").1.connections
        (destAddr dstT) = some ConnectionState.Closed) := by
  have h := C9_route_remote_connection_invariant okOracle stStarted srcP dstT "m"
  exact ⟨h.1, h.2.1 (Or.inl rfl)⟩

end Dispatch
